import Mathlib

/-!
Verification of the pbxproj-editing scripts of the dual-camera-ios-app
repository against their natural-language specification.

The scripts mutate an Xcode `project.pbxproj` descriptor by text surgery.
We embed them shallowly.  Two levels are used, each faithful to the cited
source lines:

* a structured level: the descriptor is a `PBX.Doc`, the structural content
  of the sections the scripts splice into (PBXFileReference entries,
  PBXBuildFile entries, the ordered member list of the Sources build phase,
  and PBXGroup children lists).  Each script's regex splice inserts or
  removes whole record entries of exactly these kinds, so its effect is a
  function on `PBX.Doc`;
* a line level (for `fix_xcode_project.py`): the raw file as the list of its
  lines, with the script's marker searches, index arithmetic and
  `list.insert` calls translated literally.

Randomness (`uuid.uuid4`, `random.choice`) is modelled as an explicit input
stream passed to the embedded function; a script that never draws from the
stream ignores that argument.
-/

namespace PBX

/-- A PBXFileReference record: `ID /* name */ = {isa = PBXFileReference; ...
path = ...; }`.  In every script of this repository the comment annotation
(display name) and the `path` value are both the plain file name. -/
structure FileRef where
  id : String
  name : String
  path : String
deriving DecidableEq, Repr

/-- A PBXBuildFile record: `ID /* name in Sources */ = {isa = PBXBuildFile;
fileRef = REF /* name */; }`. -/
structure BuildFile where
  id : String
  fileRef : String
  name : String
deriving DecidableEq, Repr

/-- A PBXGroup record: `ID /* name */ = { isa = PBXGroup; children = (...); }`. -/
structure PGroup where
  id : String
  name : String
  children : List String
deriving DecidableEq, Repr

/-- The structural content of the descriptor sections the scripts edit:
file reference records, build file records, the ordered `files = (...)` member
list of the Sources build phase, and the group records with their children. -/
structure Doc where
  fileRefs : List FileRef
  buildFiles : List BuildFile
  sourcesPhase : List String
  groups : List PGroup
deriving DecidableEq, Repr

/-- Boolean list membership via `==` (used instead of `List.contains` to keep
simp reasoning uniform). -/
def memB (x : String) (l : List String) : Bool :=
  l.any (fun y => y == x)

/-- Boolean duplicate-freedom of a list of identifiers. -/
def nodupB : List String → Bool
  | [] => true
  | x :: xs => (!memB x xs) && nodupB xs

/-- All record identifiers of a document, across every section
(file references, build files, groups): the format has one identifier
namespace. -/
def allIds (d : Doc) : List String :=
  d.fileRefs.map (·.id) ++ d.buildFiles.map (·.id) ++ d.groups.map (·.id)

/-- No two records of the document share an identifier. -/
def uniqueIdsB (d : Doc) : Bool :=
  nodupB (allIds d)

/-- Referential integrity: every build file's `fileRef` resolves to an
existing file reference record, and every member of the Sources build phase
resolves to an existing build file record.  All build file records written by
these scripts carry the `in Sources` (compile-sources) annotation, so the
bucket of every link matches the one phase modelled. -/
def refIntegrityB (d : Doc) : Bool :=
  d.buildFiles.all (fun b => d.fileRefs.any (fun r => r.id == b.fileRef)) &&
  d.sourcesPhase.all (fun m => d.buildFiles.any (fun b => b.id == m))

/-- The children lists of two groups are disjoint. -/
def disjointChildrenB (a b : List String) : Bool :=
  a.all (fun x => !memB x b)

/-- No record id appears in the children lists of two different group
records (the no-two-parents half of the tree invariant). -/
def noTwoParentsB : List PGroup → Bool
  | [] => true
  | g :: rest =>
      rest.all (fun h => disjointChildrenB g.children h.children) &&
      noTwoParentsB rest

end PBX

namespace AddSwiftFiles

open PBX

/-!
Embedding of `src/add_swift_files.py`.

The script draws two fresh ids per file (`uuid.uuid4().hex[:24].upper()`,
lines 28-29), then splices, for every file of `files_to_add`:

* a PBXFileReference entry before `/* End PBXFileReference section */`
  (lines 31, 39-41), i.e. at the end of the file-reference section;
* a PBXBuildFile entry before `/* End PBXBuildFile section */`
  (lines 32, 44-46), i.e. at the end of the build-file section;
* the build-file id after the existing entries of the Sources build phase's
  `files = (...)` list (lines 49-53), i.e. at the end of the member list;
* the file-reference id after the existing children of the group matching
  `A2[0-9A-F]+ /* DualCameraApp */` (lines 21, 56-62), i.e. at the end of
  that group's children list, when such a group was found.

There is no check of any kind for an already existing record: every splice
is an unconditional append.  The uuid draws are modelled as an input stream
`ids : Nat → String`.  The script batches the four splices per section; the
per-file fold below appends to each of the four lists in the same file
order, producing the same final document.
-/

/-- The group targeted by the regex of line 21: id starting with `A2`,
annotated `/* DualCameraApp */`.  (The hex-digit shape of the rest of the id
is not re-checked; every id in these files is hexadecimal.  The leading-`A2`
test is spelled on the character list, which is what `String.startsWith`
compares.) -/
def isTargetGroup (g : PGroup) : Bool :=
  "A2".toList.isPrefixOf g.id.toList && g.name == "DualCameraApp"

/-- The effect of one iteration of the loop at lines 27-36 together with the
section splices at lines 38-62, for a single file: append the file-reference
record, the build-file record, the phase member and the group child. -/
def addOneSwiftFile (d : Doc) (filename refId buildId : String) : Doc :=
  { fileRefs := d.fileRefs ++ [⟨refId, filename, filename⟩]
    buildFiles := d.buildFiles ++ [⟨buildId, refId, filename⟩]
    sourcesPhase := d.sourcesPhase ++ [buildId]
    groups := d.groups.map (fun g =>
      if isTargetGroup g then { g with children := g.children ++ [refId] }
      else g) }

/-- The loop over `files_to_add`, consuming two stream ids per file
(file-reference id first, build-file id second, lines 28-29). -/
def addFilesFrom (d : Doc) : List String → (Nat → String) → Nat → Doc
  | [], _, _ => d
  | f :: rest, ids, k =>
      addFilesFrom (addOneSwiftFile d f (ids k) (ids (k + 1))) rest ids (k + 2)

/-- One run of `add_swift_files.py` on document `d` with file list `files`,
drawing ids from `ids`. -/
def addSwiftFilesRun (d : Doc) (files : List String) (ids : Nat → String) : Doc :=
  addFilesFrom d files ids 0

/-- The build-file ids the run appends to the Sources phase member list, in
file order. -/
def phaseAddsFrom : List String → (Nat → String) → Nat → List String
  | [], _, _ => []
  | _ :: rest, ids, k => ids (k + 1) :: phaseAddsFrom rest ids (k + 2)

end AddSwiftFiles

namespace FixXcodeProject

open PBX

/-!
Structured embedding of `src/fix_xcode_project.py`.

`generate_uuid` (lines 12-14) builds an id from 24 independent
`random.choice('0123456789ABCDEF')` draws; there is no check against the
existing identifiers and no redraw.  The draws are modelled as an input
stream `rand : Nat → Fin 16` of indices into the alphabet string.

`get_missing_swift_files` (lines 16-36) collects the `.swift` files of the
`DualCameraApp` directory and removes those whose name appears as the
comment annotation of a PBXFileReference entry (regex of line 30); the
annotation of a file-reference record is its `name` field, so at the
structured level a file `f` is present exactly when some record has
`name = f`.

`update_project_file` (lines 38-138) returns without writing when the
missing list is empty (lines 48-50) and otherwise creates, per missing
file, a file-reference record and a build-file record whose ids are
`generate_uuid()` plus the literal suffix `294A0000000000001`
(lines 70-81), inserts them right after the corresponding
`/* Begin ... section */` markers (lines 95-102), adds the build-file id to
the Sources phase member list and the file-reference id to the children of
the group `A1000018294A0000000000001 /* DualCameraApp */`
(lines 84-89, 104-126).  The file is written once, at the end (lines 131-132);
`none` below models a run that never writes.
-/

/-- The literal id suffix appended by the entry templates of lines 76-88. -/
def idSuffix : String := "294A0000000000001"

/-- The alphabet of line 14. -/
def hexAlphabet : List Char := "0123456789ABCDEF".toList

/-- The function `generate_uuid` (lines 12-14): 24 draws from the stream starting at
position `k`, each an index into the alphabet. -/
def generate_uuid (rand : Nat → Fin 16) (k : Nat) : String :=
  ((List.range 24).map (fun j => hexAlphabet.getD (rand (k + j)).val 'X')).asString

/-- One file is present in the project when some PBXFileReference record is
annotated with its name (regex of line 30). -/
def filePresent (d : Doc) (f : String) : Bool :=
  d.fileRefs.any (fun r => r.name == f)

/-- The function `get_missing_swift_files` (lines 16-36): the directory files not yet in
the project, in directory order. -/
def get_missing_swift_files (d : Doc) (dirFiles : List String) : List String :=
  dirFiles.filter (fun f => !filePresent d f)

/-- The new file-reference records for the missing files (lines 72, 80-81):
the `i`-th missing file consumes draws `48*i .. 48*i+23` for its
file-reference id.  Name and path are both the file name. -/
def mkNewRefs (rand : Nat → Fin 16) : List String → Nat → List FileRef
  | [], _ => []
  | f :: rest, i =>
      ⟨generate_uuid rand (48 * i) ++ idSuffix, f, f⟩ :: mkNewRefs rand rest (i + 1)

/-- The new build-file records (lines 73, 76-77): the `i`-th missing file
consumes draws `48*i+24 .. 48*i+47` for its build-file id; its `fileRef`
is the file-reference id generated just before it. -/
def mkNewBuilds (rand : Nat → Fin 16) : List String → Nat → List BuildFile
  | [], _ => []
  | f :: rest, i =>
      ⟨generate_uuid rand (48 * i + 24) ++ idSuffix,
       generate_uuid rand (48 * i) ++ idSuffix, f⟩ :: mkNewBuilds rand rest (i + 1)

/-- The group record required and targeted by the search of line 58:
`A1000018294A0000000000001 /* DualCameraApp */ = {`, i.e. that exact id with
the `DualCameraApp` annotation. -/
def isRequiredGroup (g : PGroup) : Bool :=
  g.id == "A1000018294A0000000000001" && g.name == "DualCameraApp"

/-- The function `update_project_file` (lines 38-138).  Here `none` models a
return without write: lines 48-50 when nothing is missing, and the
required-sections guard of lines 55-62 otherwise.  Of the four searched
markers, the three `/* Begin ... section */` ones delimit the sections that
are implicit in the structured document, while the fourth is the
`A1000018294A0000000000001 /* DualCameraApp */` group record, whose absence
makes the guard fail; the structured guard is that record-existence check.
New records are inserted at the head of their section (right after the
`Begin` markers, lines 95-102); the new phase members and group children are
added to the respective lists (lines 104-126). -/
def update_project_file (d : Doc) (dirFiles : List String)
    (rand : Nat → Fin 16) : Option Doc :=
  let missing := get_missing_swift_files d dirFiles
  if missing.isEmpty then none
  else if !(d.groups.any isRequiredGroup) then none
  else
    let newRefs := mkNewRefs rand missing 0
    let newBuilds := mkNewBuilds rand missing 0
    some
      { fileRefs := newRefs ++ d.fileRefs
        buildFiles := newBuilds ++ d.buildFiles
        sourcesPhase := d.sourcesPhase ++ newBuilds.map (·.id)
        groups := d.groups.map (fun g =>
          if isRequiredGroup g then
            { g with children := g.children ++ newRefs.map (·.id) }
          else g) }

/-- The document on disk after a run: unchanged when the run did not write. -/
def updateResult (d : Doc) (dirFiles : List String) (rand : Nat → Fin 16) : Doc :=
  (update_project_file d dirFiles rand).getD d

/-- The identifiers freshly allocated by a run. -/
def newIdsOf (d : Doc) (dirFiles : List String) (rand : Nat → Fin 16) : List String :=
  (mkNewRefs rand (get_missing_swift_files d dirFiles) 0).map (·.id) ++
    (mkNewBuilds rand (get_missing_swift_files d dirFiles) 0).map (·.id)

end FixXcodeProject

namespace ComprehensiveFix

open PBX

/-!
Embedding of `src/comprehensive_fix.py`.

`fix_project` (lines 6-27) performs two literal `str.replace` splices:

* lines 14-16 replace the anchor text
  `A1000017294A0000000000001 /* Info.plist */,` followed by the closing
  `);` of a children list — i.e. a children list whose last entry is the
  Info.plist id — by the same entry followed by six hard-coded children ids
  `A1000034...` to `A1000039...`;
* lines 19-21 likewise replace a `files = (...)` list ending in
  `A1000032294A0000000000001 /* CameraPreviewView.swift in Sources */,` by
  one with six further member ids `A1000033...` to `A1000038...`.

No PBXBuildFile or PBXFileReference record is created anywhere in the
script.  `str.replace` rewrites every occurrence of the anchor, hence the
map over all groups.  The file is then written unconditionally (lines 24-25).
-/

/-- The last child of the anchor of line 14 (`Info.plist`). -/
def groupAnchorId : String := "A1000017294A0000000000001"

/-- The children ids spliced in by line 15. -/
def groupAddIds : List String :=
  ["A1000034294A0000000000001", "A1000035294A0000000000001",
   "A1000036294A0000000000001", "A1000037294A0000000000001",
   "A1000038294A0000000000001", "A1000039294A0000000000001"]

/-- The last member of the anchor of line 19 (`CameraPreviewView.swift in
Sources`). -/
def sourcesAnchorId : String := "A1000032294A0000000000001"

/-- The Sources phase member ids spliced in by line 20. -/
def sourceAddIds : List String :=
  ["A1000033294A0000000000001", "A1000034294A0000000000001",
   "A1000035294A0000000000001", "A1000036294A0000000000001",
   "A1000037294A0000000000001", "A1000038294A0000000000001"]

/-- The function `fix_project` (lines 6-27): append the hard-coded children to every
children list ending in the Info.plist entry, and the hard-coded members to
the Sources member list when it ends in the CameraPreviewView entry. -/
def fix_project (d : Doc) : Doc :=
  { fileRefs := d.fileRefs
    buildFiles := d.buildFiles
    sourcesPhase :=
      if d.sourcesPhase.getLast? == some sourcesAnchorId then
        d.sourcesPhase ++ sourceAddIds
      else d.sourcesPhase
    groups := d.groups.map (fun g =>
      if g.children.getLast? == some groupAnchorId then
        { g with children := g.children ++ groupAddIds }
      else g) }

end ComprehensiveFix

namespace MD5

/-!
The MD5 digest (RFC 1321), used by `src/fix_project.py` through Python's
`hashlib.md5`.  Words are natural numbers reduced modulo `2^32` wherever
32-bit arithmetic overflows.
-/

/-- Left-rotation of a 32-bit word: for `y < 2^32` the two summands occupy
disjoint bit ranges. -/
def rotl (x s : Nat) : Nat :=
  let y := x % 4294967296
  (y * 2 ^ s) % 4294967296 + y / 2 ^ (32 - s)

/-- Bitwise complement of a 32-bit word (`2^32 - 1 - x` for `x < 2^32`). -/
def notW (x : Nat) : Nat := 4294967295 - x % 4294967296

/-- The 64 sine-derived round constants of RFC 1321. -/
def kTable : List Nat :=
  [0xd76aa478, 0xe8c7b756, 0x242070db, 0xc1bdceee,
   0xf57c0faf, 0x4787c62a, 0xa8304613, 0xfd469501,
   0x698098d8, 0x8b44f7af, 0xffff5bb1, 0x895cd7be,
   0x6b901122, 0xfd987193, 0xa679438e, 0x49b40821,
   0xf61e2562, 0xc040b340, 0x265e5a51, 0xe9b6c7aa,
   0xd62f105d, 0x02441453, 0xd8a1e681, 0xe7d3fbc8,
   0x21e1cde6, 0xc33707d6, 0xf4d50d87, 0x455a14ed,
   0xa9e3e905, 0xfcefa3f8, 0x676f02d9, 0x8d2a4c8a,
   0xfffa3942, 0x8771f681, 0x6d9d6122, 0xfde5380c,
   0xa4beea44, 0x4bdecfa9, 0xf6bb4b60, 0xbebfbc70,
   0x289b7ec6, 0xeaa127fa, 0xd4ef3085, 0x04881d05,
   0xd9d4d039, 0xe6db99e5, 0x1fa27cf8, 0xc4ac5665,
   0xf4292244, 0x432aff97, 0xab9423a7, 0xfc93a039,
   0x655b59c3, 0x8f0ccc92, 0xffeff47d, 0x85845dd1,
   0x6fa87e4f, 0xfe2ce6e0, 0xa3014314, 0x4e0811a1,
   0xf7537e82, 0xbd3af235, 0x2ad7d2bb, 0xeb86d391]

/-- The per-round left-rotation amounts of RFC 1321. -/
def sTable : List Nat :=
  [7, 12, 17, 22, 7, 12, 17, 22, 7, 12, 17, 22, 7, 12, 17, 22,
   5, 9, 14, 20, 5, 9, 14, 20, 5, 9, 14, 20, 5, 9, 14, 20,
   4, 11, 16, 23, 4, 11, 16, 23, 4, 11, 16, 23, 4, 11, 16, 23,
   6, 10, 15, 21, 6, 10, 15, 21, 6, 10, 15, 21, 6, 10, 15, 21]

/-- The round-dependent mixing function. -/
def mixF (i b c d : Nat) : Nat :=
  if i < 16 then Nat.lor (Nat.land b c) (Nat.land (notW b) d)
  else if i < 32 then Nat.lor (Nat.land d b) (Nat.land (notW d) c)
  else if i < 48 then Nat.xor b (Nat.xor c d)
  else Nat.xor c (Nat.lor b (notW d))

/-- The round-dependent message-word index. -/
def msgIdx (i : Nat) : Nat :=
  if i < 16 then i
  else if i < 32 then (5 * i + 1) % 16
  else if i < 48 then (3 * i + 5) % 16
  else (7 * i) % 16

/-- The four-word internal state. -/
structure St where
  a : Nat
  b : Nat
  c : Nat
  d : Nat
deriving Repr

/-- One of the 64 rounds on a 16-word message block `m`. -/
def round (m : List Nat) (st : St) (i : Nat) : St :=
  let f := (mixF i st.b st.c st.d + st.a + kTable.getD i 0 +
            m.getD (msgIdx i) 0) % 4294967296
  ⟨st.d, (st.b + rotl f (sTable.getD i 0)) % 4294967296, st.b, st.c⟩

/-- Process one 16-word block. -/
def processBlock (st : St) (m : List Nat) : St :=
  let e := (List.range 64).foldl (round m) st
  ⟨(st.a + e.a) % 4294967296, (st.b + e.b) % 4294967296,
   (st.c + e.c) % 4294967296, (st.d + e.d) % 4294967296⟩

/-- The `count` little-endian bytes of `n`. -/
def toBytesLE (n count : Nat) : List Nat :=
  (List.range count).map (fun k => n / 2 ^ (8 * k) % 256)

/-- RFC 1321 padding: a `0x80` byte, zeros to 56 mod 64, then the bit length
as eight little-endian bytes. -/
def pad (msg : List Nat) : List Nat :=
  let padLen := (64 + 56 - (msg.length + 1) % 64) % 64
  msg ++ [128] ++ List.replicate padLen 0 ++
    toBytesLE (msg.length * 8 % 2 ^ 64) 8

/-- Split a byte list into 64-byte chunks. -/
def chunks64 (l : List Nat) : List (List Nat) :=
  match l with
  | [] => []
  | x :: xs => ((x :: xs).take 64) :: chunks64 ((x :: xs).drop 64)
termination_by l.length
decreasing_by simp [List.length_drop]; omega

/-- A 64-byte chunk as 16 little-endian 32-bit words. -/
def toWordsLE (chunk : List Nat) : List Nat :=
  (List.range 16).map (fun j =>
    chunk.getD (4 * j) 0 + 256 * chunk.getD (4 * j + 1) 0 +
    65536 * chunk.getD (4 * j + 2) 0 + 16777216 * chunk.getD (4 * j + 3) 0)

/-- The 16-byte MD5 digest of a byte string. -/
def digestBytes (msg : List Nat) : List Nat :=
  let st := (chunks64 (pad msg)).foldl
    (fun st chunk => processBlock st (toWordsLE chunk))
    ⟨0x67452301, 0xefcdab89, 0x98badcfe, 0x10325476⟩
  toBytesLE st.a 4 ++ toBytesLE st.b 4 ++ toBytesLE st.c 4 ++ toBytesLE st.d 4

/-- A lowercase hexadecimal digit. -/
def hexChar (n : Nat) : Char := "0123456789abcdef".toList.getD n 'x'

/-- Python's `hashlib.md5(...).hexdigest()`: the digest as 32 lowercase hex
characters. -/
def hexdigest (msg : List Nat) : String :=
  (((digestBytes msg).map (fun b => [hexChar (b / 16), hexChar (b % 16)])).flatten).asString

end MD5

namespace FixProject

open PBX

/-!
Structured embedding of `src/fix_project.py`.

The script aborts (`sys.exit(1)`) before any write when the AppDelegate
anchor records are absent (lines 10-15), removes every record entry
annotated with one of the four target file names (lines 36-37), aborts when
no `A2... /* DualCameraApp */` group is found (lines 40-43) or when a
section regex fails (lines 50-56; the section boundaries are implicit in
the structured document, so that guard has no structured counterpart), and
then appends, per target file: a file-reference record at the end of the
file-reference section (lines 69-70, 83-86), a build-file record at the end
of the build-file section (lines 73-74, 88-91), the file-reference id at
the end of the group's children (lines 77, 93-100) and the build-file id at
the end of the Sources member list (lines 80, 102-106).  The single write
is at lines 109-110.  `none` models a run that exits without writing.

Identifiers come from `generate_id` (lines 31-33): the first 24 hex digits
of the MD5 of `com.dualcamera.` plus the name, uppercased.  The script
imports no source of randomness; the embedded run still receives the
process randomness stream, and ignores it.

Strings are encoded byte-per-character (`Char.toNat`), which agrees with
Python's UTF-8 `encode` on the ASCII file names involved.
-/

/-- The function `generate_id` (lines 31-33). -/
def generate_id (filename : String) : String :=
  ((MD5.hexdigest (("com.dualcamera." ++ filename).toList.map Char.toNat)).take 24).toUpper

/-- The file list of lines 22-28. -/
def files_to_add : List String :=
  ["ZoomControl.swift", "FlashControl.swift",
   "TimerControl.swift", "FocusExposureControl.swift"]

/-- The group selected by the regex of line 40: id starting `A2`, annotated
`DualCameraApp` (leading-`A2` test on the character list, as in
`AddSwiftFiles.isTargetGroup`). -/
def isTargetGroup (g : PGroup) : Bool :=
  "A2".toList.isPrefixOf g.id.toList && g.name == "DualCameraApp"

/-- The whole run of `fix_project.py` (module level, lines 5-110). -/
def fix_project_main (d : Doc) : Option Doc :=
  if !(d.fileRefs.any (fun r => r.name == "AppDelegate.swift") &&
       d.buildFiles.any (fun b => b.name == "AppDelegate.swift")) then
    none
  else if !(d.groups.any isTargetGroup) then
    none
  else
    some
      { fileRefs :=
          d.fileRefs.filter (fun r => !memB r.name files_to_add) ++
            files_to_add.map (fun f => ⟨generate_id f, f, f⟩)
        buildFiles :=
          d.buildFiles.filter (fun b => !memB b.name files_to_add) ++
            files_to_add.map (fun f =>
              ⟨generate_id ("build_" ++ f), generate_id f, f⟩)
        sourcesPhase :=
          d.sourcesPhase ++ files_to_add.map (fun f => generate_id ("build_" ++ f))
        groups := d.groups.map (fun g =>
          if isTargetGroup g then
            { g with children := g.children ++ files_to_add.map generate_id }
          else g) }

/-- A run of the script in an environment offering the randomness stream
`rand`: the script draws nothing from it. -/
def fixProjectRun (d : Doc) (rand : Nat → Fin 16) : Option Doc :=
  fix_project_main d

end FixProject

namespace FixXcodeText

/-!
Line-level embedding of `update_project_file` in `src/fix_xcode_project.py`
(lines 38-138), working on the raw file as its list of lines (the script
splits on `'\n'` at line 92 and joins at line 129; no inserted entry
contains a newline, so join and split cancel).

The script searches the content for four literal markers (lines 55-58) and
returns without writing when any is absent (lines 60-62) or when no file is
missing (lines 48-50); only at lines 131-132, after every splice, is the
file written.  `none` models a run that never opens the file for writing.

A quirk reproduced faithfully: the insertion positions of lines 95, 100 and
105 are character offsets into the joined content, then used as indices
into the line list (`list.insert` clamps an index beyond the end, modelled
by `pyInsert`); the scans of lines 107-126 then look for the closing `);`
lines.  No theorem depends on the resulting positions - only on the guards
and on which lines exist - but the definition follows the source.
-/

/-- Substring test over character lists. -/
def containsSub (p : List Char) : List Char → Bool
  | [] => p.isEmpty
  | c :: t => p.isPrefixOf (c :: t) || containsSub p t

/-- Index of the first occurrence of `p` (`re.search` of a literal). -/
def findSub (p : List Char) : List Char → Option Nat
  | [] => if p.isEmpty then some 0 else none
  | c :: t =>
      if p.isPrefixOf (c :: t) then some 0
      else (findSub p t).map (· + 1)

/-- Python's `pat in s` on strings. -/
def containsStr (s pat : String) : Bool :=
  containsSub pat.toList s.toList

/-- Python's `list.insert`: an index beyond the end appends. -/
def pyInsert (i : Nat) (x : String) (ls : List String) : List String :=
  ls.take i ++ [x] ++ ls.drop i

/-- Python's `for entry in reversed(additions): lines.insert(idx, entry)`
(lines 96-97, 101-102, 111-112, 125-126). -/
def pyInsertRevAll (i : Nat) (es ls : List String) : List String :=
  es.reverse.foldl (fun acc e => pyInsert i e acc) ls

/-- The file content the searches run over: the lines joined by `'\n'`. -/
def joined (ls : List String) : List Char :=
  (String.intercalate "\n" ls).toList

/-- Marker of line 55. -/
def mBuild : String := "/* Begin PBXBuildFile section */"

/-- Marker of line 56. -/
def mRef : String := "/* Begin PBXFileReference section */"

/-- Marker of line 57. -/
def mSources : String := "/* Begin PBXSourcesBuildPhase section */"

/-- Marker of line 58. -/
def mGroup : String := "A1000018294A0000000000001 /* DualCameraApp */ = \x7b"

/-- All four required markers found (the `all([...])` of line 60). -/
def allMarkersPresent (ls : List String) : Bool :=
  (findSub mBuild.toList (joined ls)).isSome &&
  (findSub mRef.toList (joined ls)).isSome &&
  (findSub mSources.toList (joined ls)).isSome &&
  (findSub mGroup.toList (joined ls)).isSome

/-- The pattern of the file-presence regex of line 30, at the canonical
single-space formatting these files use: an entry
`ID /* f */ = {isa = PBXFileReference...`. -/
def fileRefPat (f : String) : String :=
  " /* " ++ f ++ " */ = \x7bisa = PBXFileReference"

/-- A file is already in the project when some line carries its
file-reference entry (function `get_missing_swift_files`, lines 27-32). -/
def hasFileRefLine (ls : List String) (f : String) : Bool :=
  ls.any (fun l => containsStr l (fileRefPat f))

/-- The function `get_missing_swift_files` (lines 16-36) at line level. -/
def get_missing (ls dirFiles : List String) : List String :=
  dirFiles.filter (fun f => !hasFileRefLine ls f)

/-- The PBXBuildFile entry template of line 76. -/
def buildFileEntry (f bid rid : String) : String :=
  "\t\t" ++ bid ++ "294A0000000000001 /* " ++ f ++
    " in Sources */ = \x7bisa = PBXBuildFile; fileRef = " ++ rid ++
    "294A0000000000001 /* " ++ f ++ " */; \x7d;"

/-- The PBXFileReference entry template of line 80, written with the
presence pattern as an explicit factor. -/
def fileRefEntry (f rid : String) : String :=
  ("\t\t" ++ rid ++ "294A0000000000001") ++ fileRefPat f ++
    ("; lastKnownFileType = sourcecode.swift; path = " ++ f ++
     "; sourceTree = \"<group>\"; \x7d;")

/-- The Sources build phase entry template of line 84. -/
def sourcesEntry (f bid : String) : String :=
  "\t\t\t" ++ bid ++ "294A0000000000001 /* " ++ f ++ " in Sources */,"

/-- The group entry template of line 88. -/
def groupEntry (f rid : String) : String :=
  "\t\t\t" ++ rid ++ "294A0000000000001 /* " ++ f ++ " */,"

/-- The four addition lists built by the loop of lines 70-89; the `i`-th
missing file draws its file-reference id at stream position `48*i` and its
build-file id at `48*i+24`. -/
def additionsFrom (rand : Nat → Fin 16) :
    List String → Nat → List String × List String × List String × List String
  | [], _ => ([], [], [], [])
  | f :: rest, i =>
      let rid := FixXcodeProject.generate_uuid rand (48 * i)
      let bid := FixXcodeProject.generate_uuid rand (48 * i + 24)
      let (bs, rs, ss, gs) := additionsFrom rand rest (i + 1)
      (buildFileEntry f bid rid :: bs, fileRefEntry f rid :: rs,
       sourcesEntry f bid :: ss, groupEntry f rid :: gs)

/-- The scan of lines 107-110: from `start`, the first line that is `);`
once stripped and is followed by a `runOnlyForDeploymentPostprocessing`
line; `start` itself when none is found. -/
def scanSources (ls : List String) (start : Nat) : Nat :=
  match (List.range' start (ls.length - start)).find? (fun i =>
      decide (i + 1 < ls.length) &&
      ((ls.getD i "").trim == ");") &&
      containsStr (ls.getD (i + 1) "") "runOnlyForDeploymentPostprocessing") with
  | some i => i
  | none => start

/-- The first scan of lines 117-120: the line after `children = (`. -/
def scanChildren (ls : List String) (start : Nat) : Nat :=
  match (List.range' start (ls.length - start)).find? (fun i =>
      (ls.getD i "").trim == "children = (") with
  | some i => i + 1
  | none => start

/-- The second scan of lines 121-124: the closing `);`. -/
def scanClose (ls : List String) (start : Nat) : Nat :=
  match (List.range' start (ls.length - start)).find? (fun i =>
      (ls.getD i "").trim == ");") with
  | some i => i
  | none => start

/-- The function `update_project_file` (lines 38-138) at line level.  Here `some` carries the
written lines; `none` a run that returned before the write. -/
def update_project_file (ls dirFiles : List String)
    (rand : Nat → Fin 16) : Option (List String) :=
  let missing := get_missing ls dirFiles
  if missing.isEmpty then none
  else if allMarkersPresent ls then
    let content := joined ls
    let (bAdds, rAdds, sAdds, gAdds) := additionsFrom rand missing 0
    let bEnd := (findSub mBuild.toList content).getD 0 + mBuild.length
    let rEnd := (findSub mRef.toList content).getD 0 + mRef.length
    let sEnd := (findSub mSources.toList content).getD 0 + mSources.length
    let gEnd := (findSub mGroup.toList content).getD 0 + mGroup.length
    let ls1 := pyInsertRevAll (bEnd + (mBuild.length + 1)) bAdds ls
    let ls2 := pyInsertRevAll (rEnd + (mRef.length + 1)) rAdds ls1
    let sIdx := scanSources ls2 (sEnd + (mSources.length + 1))
    let ls3 := pyInsertRevAll sIdx sAdds ls2
    let gIdx := scanClose ls3 (scanChildren ls3 gEnd)
    some (pyInsertRevAll gIdx gAdds ls3)
  else none

end FixXcodeText

namespace SpecModel

/-!
Modelled from the spec: the repository contains no Parser or Serializer
component (spec section 1 notes the scripts have none); spec sections 4.1
and 4.3 define them.  Following those sections: `parse` splits the input
into delimited sections by recognizing begin/end markers, preserving all
content - including unknown record kinds - verbatim as opaque ranges, and
fails when a begin marker has no matching end marker; `serialize` re-emits
the sections in encounter order with every preserved range unchanged.  The
text is taken at line granularity, the granularity at which the descriptor
format delimits sections.
-/

/-- One parsed piece of the document: a line outside any section, kept
verbatim, or a section with its begin-marker line, its body lines kept
verbatim, and its end-marker line. -/
inductive Chunk where
  | plain (l : String)
  | sect (begMark : String) (body : List String) (endMark : String)
deriving DecidableEq, Repr

/-- A section begin marker, of the shape the descriptor uses. -/
def isBeginMarker (l : String) : Bool :=
  FixXcodeText.containsStr l "/* Begin " && FixXcodeText.containsStr l " section */"

/-- A section end marker. -/
def isEndMarker (l : String) : Bool :=
  FixXcodeText.containsStr l "/* End " && FixXcodeText.containsStr l " section */"

/-- The parse step, on fuel: split the lines into chunks; `none` is the
`FormatError` for a begin marker with no matching end marker.  The fuel only
bounds the recursion depth; one unit per consumed line suffices, and
`parseChunks` below supplies it. -/
def parseChunksF : Nat → List String → Option (List Chunk)
  | _, [] => some []
  | 0, _ :: _ => none
  | fuel + 1, l :: rest =>
      if isBeginMarker l then
        match rest.dropWhile (fun x => !isEndMarker x) with
        | [] => none
        | e :: rest' =>
            (parseChunksF fuel rest').map
              (Chunk.sect l (rest.takeWhile (fun x => !isEndMarker x)) e :: ·)
      else
        (parseChunksF fuel rest).map (Chunk.plain l :: ·)

/-- The parse step: each recursion step consumes at least one line, so the
line count is always enough fuel. -/
def parseChunks (ls : List String) : Option (List Chunk) :=
  parseChunksF ls.length ls

/-- The serialize step: re-emit every chunk verbatim, in order. -/
def serializeChunks : List Chunk → List String
  | [] => []
  | Chunk.plain l :: cs => l :: serializeChunks cs
  | Chunk.sect b body e :: cs => b :: (body ++ e :: serializeChunks cs)

end SpecModel

namespace UpdateProject

/-!
Embedding of `src/update_project.py`.

The script's only filesystem actions are the directory glob of line 15 and
the read-only open of line 24; `main` (lines 37-56) computes the directory
files missing from the project and prints a report.  No `open(..., 'w')`
occurs anywhere in the file.  The filesystem is modelled explicitly and the
run as the trace of filesystem operations the script performs, so that the
frame property is a statement about the trace, not a tautology of the
embedding.
-/

/-- A filesystem operation a script can perform. -/
inductive FileOp where
  | readF (path : String)
  | listDir (path : String)
  | writeF (path : String) (content : String)
deriving DecidableEq, Repr

/-- The filesystem: a path-to-content association. -/
structure FS where
  files : List (String × String)
deriving DecidableEq, Repr

/-- Effect of one operation: reads and directory listings leave the
filesystem unchanged; a write replaces the file's content. -/
def applyOp (fs : FS) : FileOp → FS
  | .readF _ => fs
  | .listDir _ => fs
  | .writeF p c => ⟨(p, c) :: fs.files.filter (fun q => !(q.1 == p))⟩

/-- The operations `main` performs, in program order: the glob of
`get_swift_files_in_directory` (line 15) and the read of
`get_swift_files_in_project` (line 24). -/
def update_project_ops : List FileOp :=
  [FileOp.listDir "DualCameraApp",
   FileOp.readF "DualCameraApp.xcodeproj/project.pbxproj"]

/-- The filesystem after running `update_project.py`. -/
def runUpdateProject (fs : FS) : FS :=
  update_project_ops.foldl applyOp fs

/-- The function `get_swift_files_in_directory` (lines 10-18): the `.swift` entries of
the directory listing, sorted. -/
def get_swift_files_in_directory (listing : List String) : List String :=
  (listing.filter (fun f => f.endsWith ".swift")).mergeSort (fun a b => a ≤ b)

/-- The name captured by the file-reference regex of line 28 from one line,
at the canonical single-space formatting: the text between ` /* ` and
` */ = {isa = PBXFileReference`, when it ends in `.swift`. -/
def swiftRefName (l : String) : Option String :=
  match FixXcodeText.findSub " */ = \x7bisa = PBXFileReference".toList l.toList with
  | none => none
  | some j =>
      let before := l.toList.take j
      match FixXcodeText.findSub " /* ".toList before with
      | none => none
      | some i =>
          let name := (before.drop (i + 4)).asString
          if name.endsWith ".swift" then some name else none

/-- The function `get_swift_files_in_project` (lines 20-35): the annotated names of the
file-reference entries, sorted. -/
def get_swift_files_in_project (content : List String) : List String :=
  (content.filterMap swiftRefName).mergeSort (fun a b => a ≤ b)

/-- The missing-file report `main` prints (line 46). -/
def missingReport (listing content : List String) : List String :=
  (get_swift_files_in_directory listing).filter
    (fun f => !(get_swift_files_in_project content).contains f)

end UpdateProject

namespace Inputs

open PBX

/-!
Concrete documents and randomness streams used to evaluate the embedded
scripts on specific inputs.
-/

/-- The file list of `add_swift_files.py`, lines 6-11. -/
def files_to_add : List String :=
  ["ZoomControl.swift", "FlashControl.swift",
   "TimerControl.swift", "FocusExposureControl.swift"]

/-- The number of file-reference records annotated with a given name. -/
def countRefsNamed (d : Doc) (p : String) : Nat :=
  (d.fileRefs.filter (fun r => r.name == p)).length

/-- An empty descriptor. -/
def emptyDoc : Doc := ⟨[], [], [], []⟩

/-- A uuid stream whose draws are pairwise distinct (one run). -/
def idsRunA : Nat → String := fun n => "A" ++ toString n

/-- A second, disjoint uuid stream (a later run of the same script). -/
def idsRunB : Nat → String := fun n => "B" ++ toString n

/-- A uuid stream that repeats one value: the colliding draw the scripts
never re-check. -/
def idsConst : Nat → String := fun _ => "AAAAAAAAAAAAAAAAAAAAAAAA"

/-- A `random.choice` stream that always picks index 10 (the letter `A`). -/
def randConst : Nat → Fin 16 := fun _ => ⟨10, by omega⟩

/-- A `random.choice` stream cycling through the alphabet, giving pairwise
distinct 24-character ids at distinct 24-aligned offsets. -/
def randCycle : Nat → Fin 16 := fun n => ⟨n % 16, Nat.mod_lt n (by omega)⟩

/-- A document holding one project with a `DualCameraApp` group, used to run
`add_swift_files.py` twice. -/
def dcaDoc : Doc :=
  ⟨[⟨"A2000000000000000000000F", "AppDelegate.swift", "AppDelegate.swift"⟩],
   [⟨"A2000000000000000000000E", "A2000000000000000000000F", "AppDelegate.swift"⟩],
   ["A2000000000000000000000E"],
   [⟨"A2BBBBBBBBBBBBBBBBBBBBBB", "DualCameraApp",
     ["A2000000000000000000000F"]⟩]⟩

/-- A document whose `Helpers` group already holds the very id the constant
uuid stream will produce. -/
def twoGroupDoc : Doc :=
  ⟨[], [], [],
   [⟨"G1000000000000000000000A", "Helpers", ["AAAAAAAAAAAAAAAAAAAAAAAA"]⟩,
    ⟨"A2BBBBBBBBBBBBBBBBBBBBBB", "DualCameraApp", []⟩]⟩

/-- A two-group document with no id collisions anywhere. -/
def twoGroupFreshDoc : Doc :=
  ⟨[], [], [],
   [⟨"G1000000000000000000000A", "Helpers", ["C1000000000000000000000A"]⟩,
    ⟨"A2BBBBBBBBBBBBBBBBBBBBBB", "DualCameraApp", ["C2000000000000000000000A"]⟩]⟩

/-- A document already holding a file reference for `Foo.swift`. -/
def fooDoc : Doc :=
  ⟨[⟨"E100000000000000000000E1", "Foo.swift", "Foo.swift"⟩], [], [], []⟩

/-- A document holding only the group record `fix_xcode_project.py`'s
required-sections guard looks for, so that a run on it passes the guard and
writes. -/
def dcaGroupDoc : Doc :=
  ⟨[], [], [], [⟨"A1000018294A0000000000001", "DualCameraApp", []⟩]⟩

/-- A document holding both a file reference for `Foo.swift` and the group
record required by `fix_xcode_project.py`'s guard. -/
def fooDcaDoc : Doc :=
  ⟨[⟨"E100000000000000000000E1", "Foo.swift", "Foo.swift"⟩], [], [],
   [⟨"A1000018294A0000000000001", "DualCameraApp", []⟩]⟩

/-- A document satisfying the anchors of `comprehensive_fix.py` with full
referential integrity but without the six hard-coded build-file records. -/
def anchoredDoc : Doc :=
  ⟨[⟨"F100000000000000000000F1", "CameraPreviewView.swift", "CameraPreviewView.swift"⟩],
   [⟨"A1000032294A0000000000001", "F100000000000000000000F1", "CameraPreviewView.swift"⟩],
   ["A1000032294A0000000000001"],
   []⟩

/-- A document satisfying the anchors of `comprehensive_fix.py` in which the
six hard-coded build-file records do exist and resolve. -/
def anchoredFullDoc : Doc :=
  ⟨[⟨"F100000000000000000000F1", "CameraPreviewView.swift", "CameraPreviewView.swift"⟩],
   [⟨"A1000032294A0000000000001", "F100000000000000000000F1", "CameraPreviewView.swift"⟩,
    ⟨"A1000033294A0000000000001", "F100000000000000000000F1", "VisualCountdownView.swift"⟩,
    ⟨"A1000034294A0000000000001", "F100000000000000000000F1", "SettingsManager.swift"⟩,
    ⟨"A1000035294A0000000000001", "F100000000000000000000F1", "TripleOutputControlView.swift"⟩,
    ⟨"A1000036294A0000000000001", "F100000000000000000000F1", "CameraControlsView.swift"⟩,
    ⟨"A1000037294A0000000000001", "F100000000000000000000F1", "AdvancedCameraControlsManager.swift"⟩,
    ⟨"A1000038294A0000000000001", "F100000000000000000000F1", "AudioControlsView.swift"⟩],
   ["A1000032294A0000000000001"],
   []⟩

/-- Sample text for the spec-modelled parser: one section between plain
lines. -/
def demoLines : List String :=
  ["prefixline",
   "/* Begin PBXFileReference section */",
   "\t\tE1 /* Foo.swift */ = \x7bisa = PBXFileReference; \x7d;",
   "/* End PBXFileReference section */",
   "trailer"]

/-- The chunks `parseChunks` yields on `demoLines`. -/
def demoChunks : List SpecModel.Chunk :=
  [SpecModel.Chunk.plain "prefixline",
   SpecModel.Chunk.sect "/* Begin PBXFileReference section */"
     ["\t\tE1 /* Foo.swift */ = \x7bisa = PBXFileReference; \x7d;"]
     "/* End PBXFileReference section */",
   SpecModel.Chunk.plain "trailer"]

end Inputs

/-!
Helper lemmas shared by the claim proofs.
-/

namespace PBX

theorem memB_iff (x : String) (l : List String) :
    memB x l = true ↔ x ∈ l := by
  simp only [memB, List.any_eq_true, beq_iff_eq]
  constructor
  · rintro ⟨y, hy, rfl⟩
    exact hy
  · intro h
    exact ⟨x, h, rfl⟩

theorem memB_eq_false_iff (x : String) (l : List String) :
    memB x l = false ↔ x ∉ l := by
  rw [← memB_iff]
  cases memB x l <;> simp

theorem nodupB_iff (l : List String) : nodupB l = true ↔ l.Nodup := by
  induction l with
  | nil => simp [nodupB]
  | cons x xs ih =>
    simp only [nodupB, Bool.and_eq_true, Bool.not_eq_true', memB_eq_false_iff,
      ih, List.nodup_cons]

theorem disjointChildrenB_iff (a b : List String) :
    disjointChildrenB a b = true ↔ ∀ x ∈ a, x ∉ b := by
  simp [disjointChildrenB, List.all_eq_true, memB_eq_false_iff]

theorem noTwoParentsB_iff (gs : List PGroup) :
    noTwoParentsB gs = true ↔
      gs.Pairwise (fun g h => ∀ x ∈ g.children, x ∉ h.children) := by
  induction gs with
  | nil => simp [noTwoParentsB]
  | cons g rest ih =>
    simp [noTwoParentsB, List.pairwise_cons, List.all_eq_true,
      disjointChildrenB_iff, ih, and_comm]

end PBX

namespace AddSwiftFiles

open PBX

theorem addFilesFrom_sourcesPhase (files : List String) (ids : Nat → String) :
    ∀ (d : Doc) (k : Nat),
      (addFilesFrom d files ids k).sourcesPhase =
        d.sourcesPhase ++ phaseAddsFrom files ids k := by
  induction files with
  | nil => intro d k; simp [addFilesFrom, phaseAddsFrom]
  | cons f rest ih =>
    intro d k
    simp [addFilesFrom, phaseAddsFrom, ih, addOneSwiftFile]

end AddSwiftFiles

/-- C8: the embedded `add_swift_files.py` adds new Sources-phase members
strictly at the end of the phase's ordered member list: the resulting list
is the previous list followed by the new build-file ids, so every
previously present member keeps its relative order and precedes every newly
added one. -/
theorem claim8_phase_members_appended (d : PBX.Doc) (files : List String)
    (ids : Nat → String) :
    (AddSwiftFiles.addSwiftFilesRun d files ids).sourcesPhase =
      d.sourcesPhase ++ AddSwiftFiles.phaseAddsFrom files ids 0 :=
  AddSwiftFiles.addFilesFrom_sourcesPhase files ids d 0

/-- C9: the embedded `fix_project.py` run is deterministic: its output does
not depend on the process randomness stream (identifiers are MD5-derived
from the file names through `generate_id`, and the script draws nothing
random), so two runs on the same input produce the same output. -/
theorem claim9_fix_project_deterministic (d : PBX.Doc)
    (r₁ r₂ : Nat → Fin 16) :
    FixProject.fixProjectRun d r₁ = FixProject.fixProjectRun d r₂ := rfl

/-- C10: the trace of filesystem operations `update_project.py` performs
consists of a directory listing and a read, so running it leaves every file
of the filesystem, the descriptor included, unchanged. -/
theorem claim10_update_project_reads_only (fs : UpdateProject.FS) :
    UpdateProject.runUpdateProject fs = fs := rfl

/-- C7: when any of the four required section markers cannot be found, the
embedded `update_project_file` of `fix_xcode_project.py` returns before
reaching the write at the end of the function, so the descriptor on disk is
left unchanged; output is produced only on the branch in which every lookup
and every splice has been performed. -/
theorem claim7_abort_on_failed_lookup (ls dirFiles : List String)
    (rand : Nat → Fin 16) (h : FixXcodeText.allMarkersPresent ls = false) :
    FixXcodeText.update_project_file ls dirFiles rand = none := by
  unfold FixXcodeText.update_project_file
  cases hm : (FixXcodeText.get_missing ls dirFiles).isEmpty <;> simp [hm, h]

/-- Witness for C7: on a file containing none of the section markers, with
one file to add, the run writes nothing. -/
theorem claim7_abort_on_failed_lookup_wit :
    FixXcodeText.update_project_file ["hello"] ["Foo.swift"] Inputs.randConst = none :=
  claim7_abort_on_failed_lookup ["hello"] ["Foo.swift"] Inputs.randConst (by decide)

namespace FixXcodeProject

open PBX

theorem mkNewRefs_any_name (rand : Nat → Fin 16) :
    ∀ (M : List String) (i : Nat) (f : String), f ∈ M →
      (mkNewRefs rand M i).any (fun r => r.name == f) = true := by
  intro M
  induction M with
  | nil => simp
  | cons g rest ih =>
    intro i f hf
    simp only [mkNewRefs, List.any_cons, Bool.or_eq_true]
    rcases List.mem_cons.mp hf with h | h
    · left
      subst h
      simp
    · right
      exact ih (i + 1) f h

theorem mkNewRefs_name_mem (rand : Nat → Fin 16) :
    ∀ (M : List String) (i : Nat) (r : FileRef),
      r ∈ mkNewRefs rand M i → r.name ∈ M := by
  intro M
  induction M with
  | nil => simp [mkNewRefs]
  | cons g rest ih =>
    intro i r hr
    simp only [mkNewRefs, List.mem_cons] at hr
    rcases hr with h | h
    · subst h
      simp
    · exact List.mem_cons_of_mem _ (ih (i + 1) r h)

theorem updateResult_of_missing_empty (d : Doc) (dirs : List String)
    (rand : Nat → Fin 16)
    (hm : (get_missing_swift_files d dirs).isEmpty = true) :
    updateResult d dirs rand = d := by
  unfold updateResult update_project_file
  simp [hm]

theorem updateResult_of_no_group (d : Doc) (dirs : List String)
    (rand : Nat → Fin 16)
    (hg : d.groups.any isRequiredGroup = false) :
    updateResult d dirs rand = d := by
  unfold updateResult update_project_file
  cases hm : (get_missing_swift_files d dirs).isEmpty <;> simp [hm, hg]

theorem updateResult_of_missing (d : Doc) (dirs : List String)
    (rand : Nat → Fin 16)
    (hm : (get_missing_swift_files d dirs).isEmpty = false)
    (hg : d.groups.any isRequiredGroup = true) :
    updateResult d dirs rand =
      { fileRefs := mkNewRefs rand (get_missing_swift_files d dirs) 0 ++ d.fileRefs
        buildFiles := mkNewBuilds rand (get_missing_swift_files d dirs) 0 ++ d.buildFiles
        sourcesPhase := d.sourcesPhase ++
          (mkNewBuilds rand (get_missing_swift_files d dirs) 0).map (·.id)
        groups := d.groups.map (fun g =>
          if isRequiredGroup g then
            { g with children := g.children ++
                (mkNewRefs rand (get_missing_swift_files d dirs) 0).map (·.id) }
          else g) } := by
  unfold updateResult update_project_file
  simp [hm, hg]

theorem filePresent_updateResult (d : Doc) (dirs : List String)
    (rand : Nat → Fin 16) (f : String)
    (hm : (get_missing_swift_files d dirs).isEmpty = false)
    (hg : d.groups.any isRequiredGroup = true) (hf : f ∈ dirs) :
    filePresent (updateResult d dirs rand) f = true := by
  rw [updateResult_of_missing d dirs rand hm hg]
  show ((mkNewRefs rand (get_missing_swift_files d dirs) 0 ++ d.fileRefs).any
    (fun r => r.name == f)) = true
  rw [List.any_append, Bool.or_eq_true]
  cases hp : filePresent d f with
  | true => exact Or.inr hp
  | false =>
    left
    apply mkNewRefs_any_name
    exact List.mem_filter.mpr ⟨hf, by simp [hp]⟩

theorem second_missing_empty (d : Doc) (dirs : List String)
    (rand : Nat → Fin 16)
    (hm : (get_missing_swift_files d dirs).isEmpty = false)
    (hg : d.groups.any isRequiredGroup = true) :
    (get_missing_swift_files (updateResult d dirs rand) dirs).isEmpty = true := by
  have : get_missing_swift_files (updateResult d dirs rand) dirs = [] := by
    apply List.filter_eq_nil_iff.mpr
    intro f hf
    simp [filePresent_updateResult d dirs rand f hm hg hf]
  rw [this]
  rfl

end FixXcodeProject

/-- C1 (amended): the missing-file operation of `fix_xcode_project.py` is
idempotent - whenever its first application wrote, the second writes
nothing, because every file added by the first pass is found present by
`get_missing_swift_files`, and whenever the first application aborted
(nothing missing, or the required-sections guard failed) the second aborts
for the same reason - so the document on disk after the second run equals
the one after the first.  For `add_swift_files.py` the original claim
fails; see the counterexample. -/
theorem claim1_update_idempotent (d : PBX.Doc) (dirs : List String)
    (r r' : Nat → Fin 16) :
    FixXcodeProject.updateResult (FixXcodeProject.updateResult d dirs r) dirs r' =
      FixXcodeProject.updateResult d dirs r := by
  cases hm : (FixXcodeProject.get_missing_swift_files d dirs).isEmpty with
  | true =>
    rw [FixXcodeProject.updateResult_of_missing_empty d dirs r hm,
      FixXcodeProject.updateResult_of_missing_empty d dirs r' hm]
  | false =>
    cases hg : d.groups.any FixXcodeProject.isRequiredGroup with
    | false =>
      rw [FixXcodeProject.updateResult_of_no_group d dirs r hg,
        FixXcodeProject.updateResult_of_no_group d dirs r' hg]
    | true =>
      exact FixXcodeProject.updateResult_of_missing_empty _ dirs r'
        (FixXcodeProject.second_missing_empty d dirs r hm hg)

/-- C6 (amended): through `fix_xcode_project.py`, adding a file whose
relative path (file name) already has a file-reference record is a no-op
for that path and not an error: the file-reference records carrying that
name are exactly those of the input.  No warning is recorded anywhere and
no existing id is returned - the script has no such reporting. -/
theorem claim6_existing_path_preserved (d : PBX.Doc) (dirs : List String)
    (rand : Nat → Fin 16) (p : String)
    (hp : FixXcodeProject.filePresent d p = true) :
    (FixXcodeProject.updateResult d dirs rand).fileRefs.filter
        (fun r => r.name == p) =
      d.fileRefs.filter (fun r => r.name == p) := by
  cases hm : (FixXcodeProject.get_missing_swift_files d dirs).isEmpty with
  | true => rw [FixXcodeProject.updateResult_of_missing_empty d dirs rand hm]
  | false =>
    cases hg : d.groups.any FixXcodeProject.isRequiredGroup with
    | false => rw [FixXcodeProject.updateResult_of_no_group d dirs rand hg]
    | true =>
      rw [FixXcodeProject.updateResult_of_missing d dirs rand hm hg]
      show (FixXcodeProject.mkNewRefs rand _ 0 ++ d.fileRefs).filter
        (fun r => r.name == p) = _
      rw [List.filter_append]
      have hnil : (FixXcodeProject.mkNewRefs rand
          (FixXcodeProject.get_missing_swift_files d dirs) 0).filter
          (fun r => r.name == p) = [] := by
        apply List.filter_eq_nil_iff.mpr
        intro r hr
        have hname := FixXcodeProject.mkNewRefs_name_mem rand _ 0 r hr
        have hnp := (List.mem_filter.mp hname).2
        simp only [Bool.not_eq_true'] at hnp
        simp only [beq_iff_eq]
        intro hcontra
        rw [hcontra] at hnp
        rw [hp] at hnp
        exact Bool.true_eq_false.mp hnp
      rw [hnil]
      rfl

/-- Witness for C6: a document already holding `Foo.swift` together with the
required group; after the run, which passes the guard and adds `Bar.swift`,
the `Foo.swift` records are unchanged. -/
theorem claim6_existing_path_preserved_wit :
    (FixXcodeProject.updateResult Inputs.fooDcaDoc ["Foo.swift", "Bar.swift"]
        Inputs.randCycle).fileRefs.filter (fun r => r.name == "Foo.swift") =
      Inputs.fooDcaDoc.fileRefs.filter (fun r => r.name == "Foo.swift") :=
  claim6_existing_path_preserved Inputs.fooDcaDoc ["Foo.swift", "Bar.swift"]
    Inputs.randCycle "Foo.swift" (by decide)

/-- C3 (amended): `comprehensive_fix.py` preserves referential integrity
only when the six hard-coded build-file records it references already exist
in the input document; it never creates them itself.  (On documents lacking
them, integrity breaks; see the counterexample.) -/
theorem claim3_integrity_preserved (d : PBX.Doc)
    (h1 : PBX.refIntegrityB d = true)
    (h2 : ComprehensiveFix.sourceAddIds.all
        (fun i => d.buildFiles.any (fun b => b.id == i)) = true) :
    PBX.refIntegrityB (ComprehensiveFix.fix_project d) = true := by
  simp only [PBX.refIntegrityB, ComprehensiveFix.fix_project,
    Bool.and_eq_true] at h1 ⊢
  refine ⟨h1.1, ?_⟩
  by_cases hc : (d.sourcesPhase.getLast? ==
      some ComprehensiveFix.sourcesAnchorId) = true
  · simp only [hc, if_true, List.all_append, Bool.and_eq_true]
    exact And.intro h1.2 h2
  · simp only [Bool.not_eq_true] at hc
    simp only [hc, Bool.false_eq_true, if_false]
    exact h1.2

/-- Witness for C3: a document in which the six referenced build-file
records exist; integrity survives the run. -/
theorem claim3_integrity_preserved_wit :
    PBX.refIntegrityB (ComprehensiveFix.fix_project Inputs.anchoredFullDoc) = true :=
  claim3_integrity_preserved Inputs.anchoredFullDoc (by decide) (by decide)

namespace FixXcodeProject

open PBX

theorem map_id_if_groups (gs : List PGroup) (cs : List String) :
    (gs.map (fun g =>
      if isRequiredGroup g then
        { g with children := g.children ++ cs }
      else g)).map (·.id) = gs.map (·.id) := by
  induction gs with
  | nil => rfl
  | cons g rest ih =>
    simp only [List.map_cons]
    rw [ih]
    by_cases h : isRequiredGroup g = true <;> simp [h]

theorem nodup_assembled {A B C D E : List String}
    (h1 : (B ++ D ++ E).Nodup) (h2 : (A ++ C).Nodup)
    (h3 : ∀ x ∈ A ++ C, x ∉ B ++ D ++ E) :
    ((A ++ B) ++ (C ++ D) ++ E).Nodup := by
  have p2 : List.Perm (A ++ (C ++ (B ++ (D ++ E)))) (A ++ (B ++ (C ++ (D ++ E)))) :=
    List.Perm.append_left A (List.perm_append_comm_assoc C B (D ++ E))
  have hperm : List.Perm ((A ++ C) ++ (B ++ D ++ E)) ((A ++ B) ++ (C ++ D) ++ E) := by
    simpa [List.append_assoc] using p2
  exact hperm.nodup (List.nodup_append.mpr ⟨h2, h1, fun a ha hb => h3 a ha hb⟩)

end FixXcodeProject

/-- C2 (amended): the identifiers of `fix_xcode_project.py` are 24
independent random hexadecimal draws with no check against the existing
identifier set and no redraw on collision, so identifier uniqueness holds
exactly when the drawn ids are fresh: if the input document's identifiers
are duplicate-free and the freshly drawn ids are pairwise distinct and
absent from the document, the output document's identifiers are
duplicate-free.  (With a colliding draw, uniqueness fails; see the
counterexample.) -/
theorem claim2_unique_of_fresh_draws (d : PBX.Doc) (dirs : List String)
    (rand : Nat → Fin 16)
    (h1 : PBX.uniqueIdsB d = true)
    (h2 : PBX.nodupB (FixXcodeProject.newIdsOf d dirs rand) = true)
    (h3 : (FixXcodeProject.newIdsOf d dirs rand).all
        (fun x => !PBX.memB x (PBX.allIds d)) = true) :
    PBX.uniqueIdsB (FixXcodeProject.updateResult d dirs rand) = true := by
  cases hm : (FixXcodeProject.get_missing_swift_files d dirs).isEmpty with
  | true =>
    rw [FixXcodeProject.updateResult_of_missing_empty d dirs rand hm]
    exact h1
  | false =>
    cases hg : d.groups.any FixXcodeProject.isRequiredGroup with
    | false =>
      rw [FixXcodeProject.updateResult_of_no_group d dirs rand hg]
      exact h1
    | true =>
      simp only [PBX.uniqueIdsB, PBX.allIds, PBX.nodupB_iff] at h1 ⊢
      simp only [FixXcodeProject.newIdsOf, PBX.nodupB_iff] at h2
      simp only [FixXcodeProject.newIdsOf, List.all_eq_true, Bool.not_eq_true',
        PBX.memB_eq_false_iff, PBX.allIds] at h3
      rw [FixXcodeProject.updateResult_of_missing d dirs rand hm hg]
      simp only [List.map_append, FixXcodeProject.map_id_if_groups]
      exact FixXcodeProject.nodup_assembled h1 h2 h3

/-- Witness for C2: from a document holding only the required group, adding
one file with distinct draws yields distinct identifiers. -/
theorem claim2_unique_of_fresh_draws_wit :
    PBX.uniqueIdsB (FixXcodeProject.updateResult Inputs.dcaGroupDoc ["Foo.swift"]
      Inputs.randCycle) = true :=
  claim2_unique_of_fresh_draws Inputs.dcaGroupDoc ["Foo.swift"] Inputs.randCycle
    (by decide) (by decide) (by decide)

namespace AddSwiftFiles

open PBX

theorem isTargetGroup_map (g : PGroup) (rid : String) :
    isTargetGroup (if isTargetGroup g then
        { g with children := g.children ++ [rid] } else g) =
      isTargetGroup g := by
  by_cases h : isTargetGroup g = true
  · rw [if_pos h]
    rfl
  · rw [if_neg h]

theorem addOne_noTwoParents (d : Doc) (f rid bid : String)
    (hnt : noTwoParentsB d.groups = true)
    (hone : d.groups.Pairwise (fun g h =>
      ¬(isTargetGroup g = true ∧ isTargetGroup h = true)))
    (hfresh : ∀ g ∈ d.groups, isTargetGroup g = false → rid ∉ g.children) :
    noTwoParentsB (addOneSwiftFile d f rid bid).groups = true := by
  rw [noTwoParentsB_iff] at hnt ⊢
  simp only [addOneSwiftFile]
  rw [List.pairwise_map]
  refine (hnt.and hone).imp_of_mem ?_
  intro g h hg hh hr
  obtain ⟨hdj, hnb⟩ := hr
  have hgm := hg
  have hhm := hh
  by_cases tg : isTargetGroup g = true
  · by_cases th : isTargetGroup h = true
    · exact absurd ⟨tg, th⟩ hnb
    · have th' : isTargetGroup h = false := Bool.not_eq_true _ |>.mp th
      simp only [tg, if_true, th', Bool.false_eq_true, if_false]
      intro x hx
      rcases List.mem_append.mp hx with hx | hx
      · exact hdj x hx
      · have : x = rid := by simpa using hx
        subst this
        exact hfresh h hhm th'
  · have tg' : isTargetGroup g = false := Bool.not_eq_true _ |>.mp tg
    by_cases th : isTargetGroup h = true
    · simp only [tg', Bool.false_eq_true, if_false, th, if_true]
      intro x hx hmem
      rcases List.mem_append.mp hmem with hm | hm
      · exact hdj x hx hm
      · have : x = rid := by simpa using hm
        subst this
        exact hfresh g hgm tg' hx
    · have th' : isTargetGroup h = false := Bool.not_eq_true _ |>.mp th
      simp only [tg', th', Bool.false_eq_true, if_false]
      exact hdj

theorem addFilesFrom_noTwoParents (files : List String) (ids : Nat → String) :
    ∀ (d : Doc) (k : Nat),
      noTwoParentsB d.groups = true →
      d.groups.Pairwise (fun g h =>
        ¬(isTargetGroup g = true ∧ isTargetGroup h = true)) →
      (∀ i, i < files.length → ∀ g ∈ d.groups,
        isTargetGroup g = false → ids (k + 2 * i) ∉ g.children) →
      noTwoParentsB (addFilesFrom d files ids k).groups = true := by
  induction files with
  | nil =>
    intro d k h _ _
    simpa [addFilesFrom] using h
  | cons f rest ih =>
    intro d k hnt hone hfresh
    simp only [addFilesFrom]
    apply ih
    · apply addOne_noTwoParents d f (ids k) (ids (k + 1)) hnt hone
      intro g hg htg
      have := hfresh 0 (by simp) g hg htg
      simpa using this
    · simp only [addOneSwiftFile]
      rw [List.pairwise_map]
      refine hone.imp ?_
      intro g h hr
      rw [isTargetGroup_map, isTargetGroup_map]
      exact hr
    · intro i hi g' hg' htg'
      simp only [addOneSwiftFile] at hg'
      rcases List.mem_map.mp hg' with ⟨g, hg, rfl⟩
      have htg : isTargetGroup g = false := by rwa [isTargetGroup_map] at htg'
      have hfg : (if isTargetGroup g then
          { g with children := g.children ++ [ids k] } else g) = g := by
        simp [htg]
      rw [hfg]
      have heq : k + 2 + 2 * i = k + 2 * (i + 1) := by omega
      rw [heq]
      exact hfresh (i + 1) (by simpa using Nat.succ_lt_succ hi) g hg htg

end AddSwiftFiles

/-- C5 (amended): the group insertion of `add_swift_files.py` appends the
generated file-reference ids to the `DualCameraApp` group unconditionally,
with no absence check and no removal from other groups; the no-two-parents
half of the tree invariant is preserved exactly when the drawn ids are
fresh: if no two groups share a child, at most one group matches the
`A2... /* DualCameraApp */` pattern, and none of the ids drawn for the run
already sits in a non-target group's children, then after the run no two
groups share a child.  (With a colliding draw the invariant fails; see the
counterexample.) -/
theorem claim5_no_two_parents_of_fresh (d : PBX.Doc) (files : List String)
    (ids : Nat → String)
    (h1 : PBX.noTwoParentsB d.groups = true)
    (h2 : d.groups.Pairwise (fun g h =>
      ¬(AddSwiftFiles.isTargetGroup g = true ∧
        AddSwiftFiles.isTargetGroup h = true)))
    (h3 : ∀ i, i < files.length → ∀ g ∈ d.groups,
      AddSwiftFiles.isTargetGroup g = false → ids (2 * i) ∉ g.children) :
    PBX.noTwoParentsB (AddSwiftFiles.addSwiftFilesRun d files ids).groups = true := by
  apply AddSwiftFiles.addFilesFrom_noTwoParents files ids d 0 h1 h2
  intro i hi g hg htg
  simpa using h3 i hi g hg htg

/-- Witness for C5: a two-group document with fresh drawn ids; the
no-two-parents invariant survives the run. -/
theorem claim5_no_two_parents_of_fresh_wit :
    PBX.noTwoParentsB (AddSwiftFiles.addSwiftFilesRun Inputs.twoGroupFreshDoc
      ["Foo.swift"] Inputs.idsRunA).groups = true :=
  claim5_no_two_parents_of_fresh Inputs.twoGroupFreshDoc ["Foo.swift"]
    Inputs.idsRunA (by decide) (by decide) (by decide)

theorem parseChunksF_roundtrip :
    ∀ (fuel : Nat) (ls : List String) (cs : List SpecModel.Chunk),
      SpecModel.parseChunksF fuel ls = some cs →
      SpecModel.serializeChunks cs = ls := by
  intro fuel
  induction fuel with
  | zero =>
    intro ls cs h
    cases ls with
    | nil =>
      simp only [SpecModel.parseChunksF, Option.some_inj] at h
      subst h
      rfl
    | cons l rest => simp [SpecModel.parseChunksF] at h
  | succ fuel ih =>
    intro ls cs h
    cases ls with
    | nil =>
      simp only [SpecModel.parseChunksF, Option.some_inj] at h
      subst h
      rfl
    | cons l rest =>
      by_cases hbeg : SpecModel.isBeginMarker l = true
      · simp only [SpecModel.parseChunksF, hbeg, if_true] at h
        cases hd : rest.dropWhile (fun x => !SpecModel.isEndMarker x) with
        | nil => simp [hd] at h
        | cons e rest2 =>
          simp only [hd] at h
          cases hp : SpecModel.parseChunksF fuel rest2 with
          | none => simp [hp] at h
          | some cs' =>
            simp only [hp, Option.map_some', Option.some_inj] at h
            subst h
            have hS := ih rest2 cs' hp
            simp only [SpecModel.serializeChunks]
            rw [hS, ← hd, List.takeWhile_append_dropWhile]
      · have hbeg' : SpecModel.isBeginMarker l = false :=
          Bool.not_eq_true _ |>.mp hbeg
        simp only [SpecModel.parseChunksF, hbeg', Bool.false_eq_true,
          if_false] at h
        cases hp : SpecModel.parseChunksF fuel rest with
        | none => simp [hp] at h
        | some cs' =>
          simp only [hp, Option.map_some', Option.some_inj] at h
          subst h
          have hS := ih rest cs' hp
          simp only [SpecModel.serializeChunks]
          rw [hS]

/-- C4: round-trip stability of the spec-modelled parser and serializer:
whenever parsing succeeds, serializing the parsed chunks reproduces the
input lines exactly, with no mutation in between. -/
theorem claim4_serialize_parse_roundtrip (ls : List String)
    (cs : List SpecModel.Chunk) (h : SpecModel.parseChunks ls = some cs) :
    SpecModel.serializeChunks cs = ls :=
  parseChunksF_roundtrip ls.length ls cs h

/-- Witness for C4: a file with one section parses and serializes back to
itself. -/
theorem claim4_serialize_parse_roundtrip_wit :
    SpecModel.serializeChunks Inputs.demoChunks = Inputs.demoLines :=
  claim4_serialize_parse_roundtrip Inputs.demoLines Inputs.demoChunks (by decide)

/-- Counterexample for C1: applying the embedded `add_swift_files.py` twice
with the same file list does not reproduce the first output - the second
run creates fresh duplicate records instead of returning existing ids. -/
theorem claim1_second_run_differs_cex :
    AddSwiftFiles.addSwiftFilesRun
        (AddSwiftFiles.addSwiftFilesRun Inputs.dcaDoc Inputs.files_to_add Inputs.idsRunA)
        Inputs.files_to_add Inputs.idsRunB ≠
      AddSwiftFiles.addSwiftFilesRun Inputs.dcaDoc Inputs.files_to_add Inputs.idsRunA := by
  decide

/-- Counterexample for C2: on a document that passes the required-sections
guard, with a randomness stream whose draws repeat, one run of the embedded
`fix_xcode_project.py` creates a file-reference record and a build-file
record carrying the same identifier - `generate_uuid` never checks the
existing identifier set and never redraws. -/
theorem claim2_shared_identifier_cex :
    (FixXcodeProject.update_project_file Inputs.dcaGroupDoc ["Foo.swift"]
        Inputs.randConst).map PBX.uniqueIdsB = some false := by
  decide

/-- Counterexample for C3: on a document with full referential integrity
that matches its anchors, `comprehensive_fix.py` appends six hard-coded
member ids to the Sources phase without creating the corresponding
build-file records, breaking integrity. -/
theorem claim3_integrity_broken_cex :
    PBX.refIntegrityB Inputs.anchoredDoc = true ∧
    PBX.refIntegrityB (ComprehensiveFix.fix_project Inputs.anchoredDoc) = false := by
  decide

/-- Counterexample for C5: the group insertion of `add_swift_files.py`
appends the generated file-reference id to the `DualCameraApp` group
unconditionally; when the drawn id already sits in another group's
children, the same id ends up as a child of two different groups. -/
theorem claim5_two_parents_cex :
    PBX.noTwoParentsB Inputs.twoGroupDoc.groups = true ∧
    PBX.noTwoParentsB (AddSwiftFiles.addSwiftFilesRun Inputs.twoGroupDoc
        Inputs.files_to_add Inputs.idsConst).groups = false := by
  decide

/-- Counterexample for C6: adding a file whose relative path already has a
file-reference record through `add_swift_files.py` leaves two records with
that path, not one. -/
theorem claim6_duplicate_record_cex :
    Inputs.countRefsNamed Inputs.fooDoc "Foo.swift" = 1 ∧
    Inputs.countRefsNamed (AddSwiftFiles.addSwiftFilesRun Inputs.fooDoc
        ["Foo.swift"] Inputs.idsRunA) "Foo.swift" = 2 := by
  decide
